import Mathlib

/-!
Shallow embedding of the eduVPN client profile lifecycle manager
(src/eduvpn/manager.py) and the finalize flow background step
(src/eduvpn/steps/finalize.py).

Python dicts are modelled as association lists over String keys; dict
access, assignment, pop and update are modelled by alookup, setKey,
popKey and dictUpdate below.  The filesystem is an association list from
paths to file contents; a file content is either raw text (credential
material, or a metadata file whose content is not valid JSON) or a
parsed JSON object (a metadata file that json.load accepts).  The
external network-configuration service (NetworkManager) is modelled as a
list of stored connection records plus a list of active connections, per
the interface contract of section 6 of the specification.  Python
exceptions are modelled by the Err type; an operation that can raise
returns Except, and a raise after mutation carries the state at the
point of the raise.
-/

deriving instance DecidableEq for Except

namespace Eduvpn

/-- Python dict read d[k] on a string-keyed dict: first binding wins. -/
def alookup : List (String × α) → String → Option α
  | [], _ => none
  | (k, v) :: rest, key => if k = key then some v else alookup rest key

/-- Python dict assignment d[k] = v: replace the existing binding in
place, or append a new one. -/
def setKey : List (String × α) → String → α → List (String × α)
  | [], key, v => [(key, v)]
  | (k, w) :: rest, key, v =>
      if k = key then (k, v) :: rest else (k, w) :: setKey rest key v

/-- Python dict.pop(k): the popped value and the dict without k, or none
(KeyError) when k is absent. -/
def popKey : List (String × α) → String → Option (α × List (String × α))
  | [], _ => none
  | (k, v) :: rest, key =>
      if k = key then some (v, rest)
      else match popKey rest key with
           | none => none
           | some (w, rest2) => some (w, (k, v) :: rest2)

/-- Python dict.update(kvs): assign every pair of kvs in order. -/
def dictUpdate (d : List (String × α)) (kvs : List (String × α)) :
    List (String × α) :=
  kvs.foldl (fun acc kv => setKey acc kv.fst kv.snd) d

/-- Remove the binding of a key from a dict; identity when absent. -/
def removeKey : List (String × α) → String → List (String × α)
  | [], _ => []
  | (k, v) :: rest, key => if k = key then rest else (k, v) :: removeKey rest key

/-- A JSON object at the granularity the manager needs: string keys to
scalar values, where none models JSON null (icon_data can be null). -/
abbrev Fields : Type := List (String × Option String)

/-- Content of a file on disk: raw text (credential material, or a
metadata file that does not parse as JSON), or a JSON object as written
by json.dump. -/
inductive FileV
  | raw (content : String)
  | obj (fields : Fields)
deriving DecidableEq

/-- The filesystem: paths to file contents. -/
abbrev Fs : Type := List (String × FileV)

/-- Look a path up in the filesystem. -/
def fsLookup (fs : Fs) (p : String) : Option FileV := alookup fs p

/-- Opening p for writing followed by a full write: create or
overwrite. -/
def fsWrite (fs : Fs) (p : String) (v : FileV) : Fs := setKey fs p v

/-- The call os.remove(p) with its failure swallowed by the caller: removing an
absent path raises OSError in Python, which every call site in
delete_provider catches and logs, so the filesystem is simply unchanged
in that case. -/
def osRemove (fs : Fs) (p : String) : Fs := removeKey fs p

/-- A stored connection record of the network-configuration service:
the connection block (uuid, id = display name, type) and the vpn.data
block (string key/value pairs, including credential file paths). -/
structure NMConn where
  uuid : String
  displayName : String
  ctype : String
  vpnData : List (String × String)
deriving DecidableEq

/-- One entry of the AddressData list of an active connection; the
service interface guarantees each entry carries an address. -/
structure AddressEntry where
  address : String
deriving DecidableEq

/-- An active connection of the network-configuration service: a uuid, a
numeric state code (2 = connected) and IPv4/IPv6 address data. -/
structure ActiveConn where
  uuid : String
  state : Nat
  ip4AddressData : List AddressEntry
  ip6AddressData : List AddressEntry
deriving DecidableEq

/-- The world the manager acts on: the stored connection records and the
active connections of the external service, and the filesystem. -/
structure St where
  conns : List NMConn
  actives : List ActiveConn
  fs : Fs
deriving DecidableEq

/-- The Python exceptions the manager raises or meets, under the names
of the error taxonomy in section 7 of the specification.
ambiguousOrMissing and notActive are the two EduvpnException raises of
manager.py (match count not one in delete_provider, no active connection
in disconnect_provider). -/
inductive Err
  | ambiguousOrMissing (count : Nat)
  | notActive
  | keyError (key : String)
  | indexError
  | ioError
  | jsonError
  | externalServiceError
  | typeError
deriving DecidableEq

/-- The constant config_path from eduvpn.config: the metadata
directory. -/
def config_path : String := "/home/user/.config/eduvpn/"

/-- The path os.path.join(config_path, uuid + ".json") of the metadata
file. -/
def metaPath (uuid : String) : String := config_path ++ uuid ++ ".json"

/-- Modelled from the spec: write_cert of eduvpn.io (not under src/)
persists one credential kind for a profile id to the per-kind path
credential_dir/kind-id (section 6, credential file layout). -/
def credential_dir : String := "/home/user/.config/eduvpn/creds/"

/-- The deterministic credential file path for a kind and profile id. -/
def cert_path_for (kind uuid : String) : String :=
  credential_dir ++ kind ++ "-" ++ uuid

/-- Modelled from the spec: write_cert persists the material and returns
the path (section 4.2, Credential Writer). -/
def write_cert (fs : Fs) (material kind uuid : String) : String × Fs :=
  (cert_path_for kind uuid, fsWrite fs (cert_path_for kind uuid) (.raw material))

/-- Modelled from the spec: ovpn_to_nm of eduvpn.openvpn (not under
src/) builds the service configuration from the parsed config, tagged
with the connection uuid and display name (section 4.3,
to_service_format); the caller overwrites the credential path entries
afterwards. -/
def ovpn_to_nm (configDict : List (String × String)) (uuid displayName : String) :
    NMConn :=
  { uuid := uuid, displayName := displayName, ctype := "vpn", vpnData := configDict }

/-- insert_config: NetworkManager.Settings.AddConnection appends the new
record to the connection table. -/
def insert_config (st : St) (nm : NMConn) : St :=
  { st with conns := st.conns ++ [nm] }

/-- The placeholder entry of list_providers: it enumerates all stored
connections of type vpn and
join each by uuid against its metadata file; a record whose metadata
fails to load or parse yields the degraded placeholder dict of
manager.py line 45. -/
def entryPlaceholder (c : NMConn) : Fields :=
  [("uuid", some c.uuid), ("display_name", some c.displayName),
   ("icon_data", none), ("connection_type", some "unknown")]

/-- The json.load of the metadata file: some fields when the file
exists and parses as a JSON object, none on any exception (missing file
or invalid JSON), which list_providers catches. -/
def loadMeta (fs : Fs) (uuid : String) : Option Fields :=
  match fsLookup fs (metaPath uuid) with
  | some (.obj md) => some md
  | _ => none

/-- list_providers of manager.py lines 33 to 47. -/
def list_providers (st : St) : List Fields :=
  (st.conns.filter (fun c => c.ctype == "vpn")).map (fun c =>
    match loadMeta st.fs c.uuid with
    | some md => md
    | none => entryPlaceholder c)

/-- The credential kinds removed by delete_provider, in loop order
(manager.py line 86). -/
def credKinds : List String := ["ca", "cert", "key", "ta"]

/-- The credential removal loop of delete_provider lines 86 to 92: for
each kind, read its path from the vpn.data block (a missing key raises
KeyError, uncaught, carrying the filesystem mutated so far) and remove
the file best-effort (removal failure caught and logged). -/
def removeCreds (data : List (String × String)) :
    List String → Fs → Except (Err × Fs) Fs
  | [], fs => .ok fs
  | f :: rest, fs =>
      match alookup data f with
      | none => .error (.keyError f, fs)
      | some path => removeCreds data rest (osRemove fs path)

/-- delete_provider of manager.py lines 71 to 105.  nmFail says for
which uuids the external service fails the record deletion
(conn.Delete() raising, line 94 to 98); that raise is re-raised to the
caller.  An error carries the world state at the point of the raise. -/
def delete_provider (nmFail : String → Bool) (st : St) (uuid : String) :
    Except (Err × St) St :=
  match st.conns.filter (fun c => c.uuid == uuid) with
  | [c] =>
      match removeCreds c.vpnData credKinds st.fs with
      | .error (e, fs1) => .error (e, { st with fs := fs1 })
      | .ok fs1 =>
          if nmFail uuid then
            .error (.externalServiceError, { st with fs := fs1 })
          else
            .ok { st with
                  conns := st.conns.eraseP (fun c => c.uuid == uuid),
                  fs := osRemove fs1 (metaPath uuid) }
  | cs => .error (.ambiguousOrMissing cs.length, st)

/-- disconnect_provider of manager.py lines 131 to 143: the deactivation
requests issued to the external service, and the error if any; zero
matching active connections raises EduvpnException (NotActive) and no
deactivation request is issued. -/
def disconnect_provider (actives : List ActiveConn) (uuid : String) :
    List ActiveConn × Option Err :=
  let conns := actives.filter (fun a => a.uuid == uuid)
  if conns.length = 0 then ([], some .notActive) else (conns, none)

/-- is_provider_connected of manager.py lines 146 to 158: scan the
active connections for the first uuid match; on a match with state code
2 return the first IPv4 and IPv6 addresses (indexing an empty
AddressData list raises IndexError), on a match with another state code
return a pair of empty strings, and with no match fall off the loop and
return None. -/
def is_provider_connected (st : St) (uuid : String) :
    Except Err (Option (String × String)) :=
  match st.actives.find? (fun a => a.uuid == uuid) with
  | none => .ok none
  | some a =>
      if a.state = 2 then
        match a.ip4AddressData[0]?, a.ip6AddressData[0]? with
        | some e4, some e6 => .ok (some (e4.address, e6.address))
        | _, _ => .error .indexError
      else .ok (some ("", ""))

/-- update_config_provider of manager.py lines 161 to 181, taking the
already parsed new configuration (parse_ovpn is an external
collaborator): pop ca and tls-auth, write their files, build the
replacement record, copy the cert and key paths out of the existing
record into it, delete the old record and insert the replacement. -/
def update_config_provider (st : St) (uuid displayName : String)
    (configDict : List (String × String)) : Except (Err × St) St :=
  match popKey configDict "ca" with
  | none => .error (.keyError "ca", st)
  | some (ca, d1) =>
  match popKey d1 "tls-auth" with
  | none => .error (.keyError "tls-auth", st)
  | some (ta, d2) =>
      let caw := write_cert st.fs ca "ca" uuid
      let taw := write_cert caw.snd ta "ta" uuid
      let nm := ovpn_to_nm d2 uuid displayName
      match st.conns.find? (fun c => c.uuid == uuid) with
      | none => .error (.externalServiceError, { st with fs := taw.snd })
      | some old =>
          match alookup old.vpnData "cert", alookup old.vpnData "key" with
          | some certPath, some keyPath =>
              let newData := dictUpdate nm.vpnData
                [("cert", certPath), ("key", keyPath),
                 ("ca", caw.fst), ("ta", taw.fst)]
              let nm2 := { nm with vpnData := newData }
              let conns1 := st.conns.eraseP (fun c => c.uuid == uuid)
              let st1 : St := { st with fs := taw.snd, conns := conns1 }
              .ok (insert_config st1 nm2)
          | none, _ => .error (.keyError "cert", { st with fs := taw.snd })
          | _, none => .error (.keyError "key", { st with fs := taw.snd })

/-- update_token of manager.py lines 198 to 212: open and json.load the
metadata file (a missing file raises IOError, an unparseable one raises
a json error), assign the token field, and json.dump the record back. -/
def update_token (st : St) (uuid : String) (token : String) :
    Except (Err × St) St :=
  match fsLookup st.fs (metaPath uuid) with
  | none => .error (.ioError, st)
  | some (.raw _) => .error (.jsonError, st)
  | some (.obj md) =>
      .ok { st with fs := fsWrite st.fs (metaPath uuid)
                           (.obj (setKey md "token" (some token))) }

/-- The number of parameters of store_provider (manager.py lines 50 to
51): api_base_uri, profile_id, display_name, token, connection_type,
authorization_type, profile_display_name, two_factor, cert, key, config,
icon_data, instance_base_uri — thirteen, none with a default. -/
def store_provider_arity : Nat := 13

/-- The number of arguments the finalize background step passes at its
call store_provider(meta) (steps/finalize.py line 34): one. -/
def finalize_store_nargs : Nat := 1

/-- Python call semantics for a function of fixed arity: binding the
arguments raises TypeError before the body runs unless the argument
count matches the arity. -/
def pythonCall (arity nargs : Nat) (run : Unit → α) : Except Err α :=
  if nargs = arity then .ok (run ()) else .error .typeError

/-- Outcome of the finalize background step after a successful fetch:
either the error path that reports that the configuration cannot be
stored (error_helper at steps/finalize.py line 37), or a stored profile
with its fresh uuid. -/
inductive FinalizeOutcome
  | storeFailed
  | added (uuid : String)
deriving DecidableEq

/-- The store phase of _background (steps/finalize.py lines 33 to 40),
reached when the keypair and profile config were fetched: call
store_provider with the single meta argument; any exception is caught,
the cannot-store-configuration error path runs and the raise leaves the
world unchanged.  storeEffect is whatever mutation and uuid
store_provider would produce if it were actually entered. -/
def background_run (st : St) (storeEffect : Unit → String × St) :
    St × FinalizeOutcome :=
  match pythonCall store_provider_arity finalize_store_nargs storeEffect with
  | .error _ => (st, .storeFailed)
  | .ok (uuid, st2) => (st2, .added uuid)

/-! Concrete sample worlds, used to instantiate the theorems below on
closed inputs. -/

/-- A vpn.data block with all four credential paths. -/
def sampleVpnData : List (String × String) :=
  [("ca", "/fs/ca1"), ("cert", "/fs/cert1"), ("key", "/fs/key1"), ("ta", "/fs/ta1")]

/-- A stored profile connection record. -/
def sampleConn : NMConn :=
  { uuid := "u1", displayName := "Provider One", ctype := "vpn",
    vpnData := sampleVpnData }

/-- A second stored record whose metadata file is corrupt. -/
def sampleBadConn : NMConn :=
  { uuid := "u2", displayName := "Provider Two", ctype := "vpn", vpnData := [] }

/-- An active connection in the connected state with address data. -/
def sampleActive : ActiveConn :=
  { uuid := "u1", state := 2,
    ip4AddressData := [{ address := "10.0.0.5" }],
    ip6AddressData := [{ address := "fe80::1" }] }

/-- An active connection in the connected state with empty address
data. -/
def sampleActiveNoAddr : ActiveConn :=
  { uuid := "u5", state := 2, ip4AddressData := [], ip6AddressData := [] }

/-- The parsed metadata record of sampleConn. -/
def sampleMeta : Fields :=
  [("display_name", some "Provider One"), ("token", some "old")]

/-- A filesystem holding the credential files of sampleConn, its valid
metadata file, and an unparseable metadata file for sampleBadConn. -/
def sampleFs : Fs :=
  [("/fs/ca1", .raw "CA"), ("/fs/cert1", .raw "CERT"),
   ("/fs/key1", .raw "KEY"), ("/fs/ta1", .raw "TA"),
   (metaPath "u1", .obj sampleMeta), (metaPath "u2", .raw "not json")]

/-- The sample world. -/
def sampleSt : St :=
  { conns := [sampleConn, sampleBadConn], actives := [sampleActive],
    fs := sampleFs }

/-- A world whose only active connection is connected but has no
address data. -/
def sampleStNoAddr : St :=
  { conns := [], actives := [sampleActiveNoAddr], fs := [] }

/-- A parsed replacement OpenVPN configuration with ca and tls-auth
blocks. -/
def sampleNewConfig : List (String × String) :=
  [("ca", "CA2"), ("tls-auth", "TA2"), ("remote", "vpn.example.com")]

/-! Helper lemmas about the dict model. -/

/-- Reading the key just assigned gives the assigned value. -/
theorem alookup_setKey_self (d : List (String × α)) (k : String) (v : α) :
    alookup (setKey d k v) k = some v := by
  induction d with
  | nil => simp [setKey, alookup]
  | cons hd tl ih =>
      obtain ⟨k1, v1⟩ := hd
      by_cases hk : k1 = k
      · subst hk
        simp [setKey, alookup]
      · simp [setKey, alookup, hk, ih]

/-- Assigning one key leaves every other key unchanged. -/
theorem alookup_setKey_ne (d : List (String × α)) (k k2 : String) (v : α)
    (h : k2 ≠ k) : alookup (setKey d k v) k2 = alookup d k2 := by
  induction d with
  | nil => simp [setKey, alookup, Ne.symm h]
  | cons hd tl ih =>
      obtain ⟨k1, v1⟩ := hd
      by_cases hk : k1 = k
      · subst hk
        simp [setKey, alookup, Ne.symm h]
      · by_cases hk2 : k1 = k2
        · subst hk2
          simp [setKey, alookup, hk]
        · simp [setKey, alookup, hk, hk2, ih]

/-- delete_provider never touches the active-connection table. -/
theorem delete_provider_actives_frame (nmFail : String → Bool) (st : St)
    (uuid : String) (st2 : St) (h : delete_provider nmFail st uuid = .ok st2) :
    st2.actives = st.actives := by
  unfold delete_provider at h
  split at h
  · split at h
    · exact absurd h (by simp)
    · split at h
      · exact absurd h (by simp)
      · injection h with h2
        subst h2
        rfl
  · exact absurd h (by simp)

/-- An unmatched uuid scans past every active connection. -/
theorem find_active_none (actives : List ActiveConn) (uuid : String)
    (h : ∀ a ∈ actives, a.uuid ≠ uuid) :
    actives.find? (fun a => a.uuid == uuid) = none := by
  rw [List.find?_eq_none]
  intro a ha
  simp [h a ha]

/-- Claim C1: delete first counts the external-service connections whose
uuid equals the id; when that count is not exactly one it raises
AmbiguousOrMissing carrying that count, and the world is unchanged — no
credential file, connection record or metadata file was removed. -/
theorem delete_count_not_one (nmFail : String → Bool) (st : St) (uuid : String)
    (h : (st.conns.filter (fun c => c.uuid == uuid)).length ≠ 1) :
    delete_provider nmFail st uuid =
      .error (.ambiguousOrMissing
                (st.conns.filter (fun c => c.uuid == uuid)).length, st) := by
  unfold delete_provider
  rcases hF : st.conns.filter (fun c => c.uuid == uuid) with _ | ⟨c, _ | ⟨d, t⟩⟩
  · rw [hF]
  · rw [hF] at h
    simp at h
  · rw [hF]

/-- Witness for C1 at a concrete world with no matching record. -/
theorem delete_count_not_one_witness :
    delete_provider (fun _ => false) sampleSt "u9" =
      .error (.ambiguousOrMissing
                (sampleSt.conns.filter (fun c => c.uuid == "u9")).length,
              sampleSt) :=
  delete_count_not_one (fun _ => false) sampleSt "u9" (by decide)

/-- Claim C2: with exactly one matching record carrying the four
credential paths, delete removes all four credential files and the
metadata file best-effort — each removal runs whether or not the
previous ones found their file, and a removal failure (absent file)
leaves the filesystem unchanged at that path only — and when the
external service fails the record deletion, that error is propagated
after the credential removals ran, before the metadata removal and with
the record still present. -/
theorem delete_swallows_file_errors_propagates_record_error
    (nmFail : String → Bool) (st : St) (uuid : String) (c : NMConn)
    (pca pcert pkey pta : String)
    (hFilter : st.conns.filter (fun x => x.uuid == uuid) = [c])
    (hca : alookup c.vpnData "ca" = some pca)
    (hcert : alookup c.vpnData "cert" = some pcert)
    (hkey : alookup c.vpnData "key" = some pkey)
    (hta : alookup c.vpnData "ta" = some pta) :
    (nmFail uuid = false →
      delete_provider nmFail st uuid =
        .ok { st with
              conns := st.conns.eraseP (fun x => x.uuid == uuid),
              fs := osRemove (osRemove (osRemove (osRemove (osRemove st.fs
                      pca) pcert) pkey) pta) (metaPath uuid) })
    ∧ (nmFail uuid = true →
      delete_provider nmFail st uuid =
        .error (.externalServiceError,
          { st with
            fs := osRemove (osRemove (osRemove (osRemove st.fs
                    pca) pcert) pkey) pta })) := by
  have hrun : removeCreds c.vpnData credKinds st.fs =
      .ok (osRemove (osRemove (osRemove (osRemove st.fs pca) pcert) pkey) pta) := by
    simp [removeCreds, credKinds, hca, hcert, hkey, hta]
  constructor
  · intro hnm
    unfold delete_provider
    rw [hFilter]
    simp [hrun, hnm]
  · intro hnm
    unfold delete_provider
    rw [hFilter]
    simp [hrun, hnm]

/-- Witness for C2 at the sample world: the success branch removes the
four credential files and the metadata file, and with a failing service
the error is propagated with the credential files already removed. -/
theorem delete_swallows_witness :
    ((fun _ => false : String → Bool) "u1" = false →
      delete_provider (fun _ => false) sampleSt "u1" =
        .ok { sampleSt with
              conns := sampleSt.conns.eraseP (fun x => x.uuid == "u1"),
              fs := osRemove (osRemove (osRemove (osRemove (osRemove sampleSt.fs
                      "/fs/ca1") "/fs/cert1") "/fs/key1") "/fs/ta1")
                      (metaPath "u1") })
    ∧ ((fun _ => false : String → Bool) "u1" = true →
      delete_provider (fun _ => false) sampleSt "u1" =
        .error (.externalServiceError,
          { sampleSt with
            fs := osRemove (osRemove (osRemove (osRemove sampleSt.fs
                    "/fs/ca1") "/fs/cert1") "/fs/key1") "/fs/ta1" })) :=
  delete_swallows_file_errors_propagates_record_error (fun _ => false)
    sampleSt "u1" sampleConn "/fs/ca1" "/fs/cert1" "/fs/key1" "/fs/ta1"
    (by decide) (by decide) (by decide) (by decide) (by decide)

/-- Claim C3: for an id with an existing external-service record, update
produces a replacement record whose vpn.data cert and key entries equal
the cert and key paths of the record it replaces, whose ca and ta
entries are the freshly written credential file paths, and the final
connection table is the old table with the old record deleted and the
replacement inserted after that deletion. -/
theorem update_preserves_cert_key (st : St) (uuid displayName : String)
    (configDict : List (String × String)) (old : NMConn)
    (ca ta : String) (d1 d2 : List (String × String))
    (certPath keyPath : String)
    (hold : st.conns.find? (fun c => c.uuid == uuid) = some old)
    (hca : popKey configDict "ca" = some (ca, d1))
    (hta : popKey d1 "tls-auth" = some (ta, d2))
    (hcert : alookup old.vpnData "cert" = some certPath)
    (hkey : alookup old.vpnData "key" = some keyPath) :
    ∃ st2 r, update_config_provider st uuid displayName configDict = .ok st2
      ∧ st2.conns = st.conns.eraseP (fun c => c.uuid == uuid) ++ [r]
      ∧ alookup r.vpnData "cert" = some certPath
      ∧ alookup r.vpnData "key" = some keyPath
      ∧ alookup r.vpnData "ca" = some (cert_path_for "ca" uuid)
      ∧ alookup r.vpnData "ta" = some (cert_path_for "ta" uuid) := by
  unfold update_config_provider
  simp only [hca, hta, hold, hcert, hkey]
  refine ⟨_, _, rfl, rfl, ?_, ?_, ?_, ?_⟩
  · simp only [dictUpdate, List.foldl]
    rw [alookup_setKey_ne _ _ _ _ (by decide), alookup_setKey_ne _ _ _ _ (by decide),
        alookup_setKey_ne _ _ _ _ (by decide), alookup_setKey_self]
  · simp only [dictUpdate, List.foldl]
    rw [alookup_setKey_ne _ _ _ _ (by decide), alookup_setKey_ne _ _ _ _ (by decide),
        alookup_setKey_self]
  · simp only [dictUpdate, List.foldl]
    rw [alookup_setKey_ne _ _ _ _ (by decide), alookup_setKey_self]
    rfl
  · simp only [dictUpdate, List.foldl]
    rw [alookup_setKey_self]
    rfl

/-- Witness for C3 at the sample world, replacing the configuration of
the stored profile. -/
theorem update_preserves_cert_key_witness :
    ∃ st2 r,
      update_config_provider sampleSt "u1" "Renamed" sampleNewConfig = .ok st2
      ∧ st2.conns = sampleSt.conns.eraseP (fun c => c.uuid == "u1") ++ [r]
      ∧ alookup r.vpnData "cert" = some "/fs/cert1"
      ∧ alookup r.vpnData "key" = some "/fs/key1"
      ∧ alookup r.vpnData "ca" = some (cert_path_for "ca" "u1")
      ∧ alookup r.vpnData "ta" = some (cert_path_for "ta" "u1") :=
  update_preserves_cert_key sampleSt "u1" "Renamed" sampleNewConfig sampleConn
    "CA2" "TA2" [("tls-auth", "TA2"), ("remote", "vpn.example.com")]
    [("remote", "vpn.example.com")] "/fs/cert1" "/fs/key1"
    (by decide) (by decide) (by decide) (by decide) (by decide)

/-- Claim C4: when the metadata file of an id parses as a JSON object,
refresh_token rewrites it with the token field set to the supplied value
and every other field bound exactly as before, and no other file of the
filesystem changes. -/
theorem update_token_changes_only_token (st : St) (uuid token : String)
    (md : Fields)
    (h : fsLookup st.fs (metaPath uuid) = some (.obj md)) :
    ∃ st2, update_token st uuid token = .ok st2
      ∧ fsLookup st2.fs (metaPath uuid) =
          some (.obj (setKey md "token" (some token)))
      ∧ alookup (setKey md "token" (some token)) "token" = some (some token)
      ∧ (∀ k, k ≠ "token" →
          alookup (setKey md "token" (some token)) k = alookup md k)
      ∧ (∀ p, p ≠ metaPath uuid → fsLookup st2.fs p = fsLookup st.fs p) := by
  unfold update_token
  rw [h]
  refine ⟨_, rfl, ?_, ?_, ?_, ?_⟩
  · exact alookup_setKey_self st.fs (metaPath uuid) _
  · exact alookup_setKey_self md "token" _
  · intro k hk
    exact alookup_setKey_ne md "token" k _ hk
  · intro p hp
    exact alookup_setKey_ne st.fs (metaPath uuid) p _ hp

/-- Witness for C4 at the sample world, refreshing the stored token. -/
theorem update_token_changes_only_token_witness :
    ∃ st2, update_token sampleSt "u1" "fresh" = .ok st2
      ∧ fsLookup st2.fs (metaPath "u1") =
          some (.obj (setKey sampleMeta "token" (some "fresh")))
      ∧ alookup (setKey sampleMeta "token" (some "fresh")) "token" =
          some (some "fresh")
      ∧ (∀ k, k ≠ "token" →
          alookup (setKey sampleMeta "token" (some "fresh")) k =
            alookup sampleMeta k)
      ∧ (∀ p, p ≠ metaPath "u1" →
          fsLookup st2.fs p = fsLookup sampleSt.fs p) :=
  update_token_changes_only_token sampleSt "u1" "fresh" sampleMeta (by decide)

/-- Claim C5: when the first active connection matching the id has state
code 2, status returns the first IPv4 and first IPv6 addresses of its
address data; when it has any other state code, status returns the
neutral pair of empty addresses. -/
theorem status_connected_addresses (st : St) (uuid : String) (a : ActiveConn)
    (hfind : st.actives.find? (fun x => x.uuid == uuid) = some a) :
    (a.state = 2 → ∀ e4 e6, a.ip4AddressData[0]? = some e4 →
        a.ip6AddressData[0]? = some e6 →
        is_provider_connected st uuid = .ok (some (e4.address, e6.address)))
    ∧ (a.state ≠ 2 →
        is_provider_connected st uuid = .ok (some ("", ""))) := by
  constructor
  · intro h2 e4 e6 h4 h6
    unfold is_provider_connected
    rw [hfind]
    simp [h2, h4, h6]
  · intro hne
    unfold is_provider_connected
    rw [hfind]
    simp [hne]

/-- Witness for C5 at the sample world, whose active connection is
connected with one IPv4 and one IPv6 address. -/
theorem status_connected_addresses_witness :
    is_provider_connected sampleSt "u1" = .ok (some ("10.0.0.5", "fe80::1")) :=
  (status_connected_addresses sampleSt "u1" sampleActive (by decide)).1
    rfl { address := "10.0.0.5" } { address := "fe80::1" } rfl rfl

/-- Claim C6: an id matching no currently active connection gets
Disconnected (the None fall-through) from status; in particular after a
successful delete of such an id, which leaves the active-connection
table untouched, status still returns Disconnected. -/
theorem status_unmatched_disconnected (nmFail : String → Bool) (st : St)
    (uuid : String) (h : ∀ a ∈ st.actives, a.uuid ≠ uuid) :
    is_provider_connected st uuid = .ok none
    ∧ (∀ st2, delete_provider nmFail st uuid = .ok st2 →
        is_provider_connected st2 uuid = .ok none) := by
  have hbase : ∀ s : St, (∀ a ∈ s.actives, a.uuid ≠ uuid) →
      is_provider_connected s uuid = .ok none := by
    intro s hs
    unfold is_provider_connected
    rw [find_active_none s.actives uuid hs]
  refine ⟨hbase st h, ?_⟩
  intro st2 hdel
  refine hbase st2 ?_
  rw [delete_provider_actives_frame nmFail st uuid st2 hdel]
  exact h

/-- Witness for C6 at the sample world with an id absent from the active
connections. -/
theorem status_unmatched_disconnected_witness :
    is_provider_connected sampleSt "u2" = .ok none
    ∧ (∀ st2, delete_provider (fun _ => false) sampleSt "u2" = .ok st2 →
        is_provider_connected st2 "u2" = .ok none) :=
  status_unmatched_disconnected (fun _ => false) sampleSt "u2" (by decide)

/-- Claim C7: listing yields one entry per VPN-type connection record,
in order; a record whose metadata fails to load or parse yields the
degraded placeholder carrying its uuid, its external-service display
name, no icon data and connection type unknown, while every record
whose metadata loads yields that metadata — a corrupt record never
aborts the enumeration. -/
theorem list_providers_resilient (st : St) :
    (list_providers st).length =
      (st.conns.filter (fun c => c.ctype == "vpn")).length
    ∧ ∀ (i : Nat) (c : NMConn),
        (st.conns.filter (fun c => c.ctype == "vpn"))[i]? = some c →
        (loadMeta st.fs c.uuid = none →
          (list_providers st)[i]? = some (entryPlaceholder c))
        ∧ (∀ md, loadMeta st.fs c.uuid = some md →
          (list_providers st)[i]? = some md) := by
  constructor
  · simp [list_providers]
  · intro i c hc
    constructor
    · intro hm
      simp [list_providers, List.getElem?_map, hc, hm]
    · intro md hm
      simp [list_providers, List.getElem?_map, hc, hm]

/-- Witness for C7 at the sample world: the record with the unparseable
metadata file yields the placeholder, the valid one yields its
metadata. -/
theorem list_providers_resilient_witness :
    (list_providers sampleSt)[1]? = some (entryPlaceholder sampleBadConn)
    ∧ (list_providers sampleSt)[0]? = some sampleMeta :=
  ⟨((list_providers_resilient sampleSt).2 1 sampleBadConn (by decide)).1
      (by decide),
   ((list_providers_resilient sampleSt).2 0 sampleConn (by decide)).2
      sampleMeta (by decide)⟩

/-- Claim C8: disconnect requests deactivation of every active
connection whose uuid equals the id; with zero matches it fails with
NotActive and issues no deactivation request. -/
theorem disconnect_requests_all_or_not_active (actives : List ActiveConn)
    (uuid : String) :
    ((actives.filter (fun a => a.uuid == uuid)).length = 0 →
      disconnect_provider actives uuid = ([], some .notActive))
    ∧ ((actives.filter (fun a => a.uuid == uuid)).length ≠ 0 →
      disconnect_provider actives uuid =
        (actives.filter (fun a => a.uuid == uuid), none)) := by
  constructor <;> intro h <;> simp [disconnect_provider, h]

/-- Witness for C8: no match yields NotActive with no request, a match
yields a request for each matching active connection. -/
theorem disconnect_requests_witness :
    disconnect_provider [sampleActive] "u9" = ([], some .notActive)
    ∧ disconnect_provider [sampleActive] "u1" =
        ([sampleActive].filter (fun a => a.uuid == "u1"), none) :=
  ⟨(disconnect_requests_all_or_not_active [sampleActive] "u9").1 (by decide),
   (disconnect_requests_all_or_not_active [sampleActive] "u1").2 (by decide)⟩

/-- Claim C9: the finalize background step calls store_provider with a
single meta argument where thirteen parameters are required, so the call
raises TypeError before the store body runs: the store step always takes
the cannot-store-configuration error path and the world is unchanged,
whatever storing would have done. -/
theorem finalize_store_always_fails (st : St)
    (storeEffect : Unit → String × St) :
    background_run st storeEffect = (st, .storeFailed)
    ∧ finalize_store_nargs ≠ store_provider_arity := by
  constructor
  · rfl
  · decide

/-- Claim C10: status is not total: for an id whose first matching
active connection has state code 2 and an empty IPv4 or IPv6
address-data list, the operation raises IndexError instead of returning
a status value. -/
theorem status_index_error_on_empty_address_data (st : St) (uuid : String)
    (a : ActiveConn)
    (hfind : st.actives.find? (fun x => x.uuid == uuid) = some a)
    (hstate : a.state = 2)
    (hempty : a.ip4AddressData = [] ∨ a.ip6AddressData = []) :
    is_provider_connected st uuid = .error .indexError := by
  unfold is_provider_connected
  rw [hfind]
  rcases hempty with h | h
  · simp [hstate, h]
  · rcases h4 : a.ip4AddressData[0]? with _ | e4 <;> simp [hstate, h, h4]

/-- Witness for C10 at a world whose connected active connection has no
address data. -/
theorem status_index_error_witness :
    is_provider_connected sampleStNoAddr "u5" = .error .indexError :=
  status_index_error_on_empty_address_data sampleStNoAddr "u5"
    sampleActiveNoAddr (by decide) rfl (Or.inl rfl)

end Eduvpn
